import Mathlib

/-- A row of the `products` table: barcode is the lookup key used by
`add_barcode_to_cart`'s SELECT. -/
structure Product where
  barcode : String
  name : String
  price : ℚ
  deriving DecidableEq

/-- One entry of `self.cart`: the dict with keys barcode, name, price, qty
appended by `add_barcode_to_cart`. -/
structure CartItem where
  barcode : String
  name : String
  price : ℚ
  qty : ℕ
  deriving DecidableEq

/-- The sample product catalog seeded by `init_db` into the `products`
table of kiosk_db.sqlite3. -/
def sampleCatalog : String → Option Product := fun b =>
  if b = "123456789012" then some ⟨"123456789012", "Milk", 40⟩
  else if b = "234567890123" then some ⟨"234567890123", "Bread", 25⟩
  else if b = "345678901234" then some ⟨"345678901234", "Eggs", 60⟩
  else if b = "456789012345" then some ⟨"456789012345", "Butter", 55⟩
  else none

/-- Result of one `add_barcode_to_cart` call, mirroring its three exits:
the product-not-found warning, the merge into an existing line item, and
the append of a fresh line item. -/
inductive ScanResult
  | notFound
  | merged
  | added
  deriving DecidableEq

/-- The `for item in self.cart` loop of `add_barcode_to_cart` (with the
default `qty=1` used at every call site): the first line item whose
barcode matches gets its quantity incremented by 1 and the loop returns;
if no item matches, a fresh line item with quantity 1 is appended. -/
def addLoop (row : Product) (barcode : String) : List CartItem → ScanResult × List CartItem
  | [] => (ScanResult.added, [⟨barcode, row.name, row.price, 1⟩])
  | it :: rest =>
      if it.barcode = barcode then
        (ScanResult.merged, { it with qty := it.qty + 1 } :: rest)
      else
        ((addLoop row barcode rest).1, it :: (addLoop row barcode rest).2)

/-- `add_barcode_to_cart` (fullcode.py lines 570-583) acting on the cart
list: the catalog SELECT, then the merge-or-append loop. -/
def scanBarcode (catalog : String → Option Product) (cart : List CartItem)
    (barcode : String) : ScanResult × List CartItem :=
  match catalog barcode with
  | none => (ScanResult.notFound, cart)
  | some row => addLoop row barcode cart

/-- The cart list left behind by `add_barcode_to_cart`. -/
def add_barcode_to_cart (catalog : String → Option Product)
    (cart : List CartItem) (barcode : String) : List CartItem :=
  (scanBarcode catalog cart barcode).2

/-- The running sum `total += item.price * item.qty` accumulated by the
loop in `refresh_cart_display`. -/
def cartSubtotal (cart : List CartItem) : ℚ :=
  (cart.map (fun it => it.price * (it.qty : ℚ))).sum

/-- Total quantity carried by the line items of one barcode. -/
def qtyOf : List CartItem → String → ℕ
  | [], _ => 0
  | it :: rest, b => (if it.barcode = b then it.qty else 0) + qtyOf rest b

/-- Number of scans of `b` in a scan sequence that hit the catalog. -/
def successfulScans (catalog : String → Option Product) : List String → String → ℕ
  | [], _ => 0
  | x :: rest, b =>
      (if x = b ∧ (catalog x).isSome then 1 else 0) + successfulScans catalog rest b

/-- Folding a scan sequence into an empty cart. -/
def runScans (catalog : String → Option Product) (bs : List String) : List CartItem :=
  bs.foldl (add_barcode_to_cart catalog) []

/-- Whitespace characters removed by Python `str.strip()`. -/
def isPySpace (c : Char) : Bool :=
  c == ' ' || c == '\t' || c == '\n' || c == '\r' || c == '\x0b' || c == '\x0c'

/-- Python `str.strip()` with no argument: drop leading and trailing
whitespace. -/
def pyStrip (s : String) : String :=
  String.mk (((s.data.dropWhile isPySpace).reverse.dropWhile isPySpace).reverse)

/-- The `PaymentStatus` enum of fullcode.py. -/
inductive PaymentStatus
  | IDLE
  | PROCESSING
  | SUCCESS
  | FAILED
  deriving DecidableEq

/-- A created gateway order as returned by `client.order.create` and put
into `ORDER_CACHE` (the id and the amount in minor units are the fields
the kiosk and the checkout route read). -/
structure RzpOrder where
  id : String
  amount : ℤ
  deriving DecidableEq

/-- A payment object as returned by `client.payment.fetch`. -/
structure RzpPayment where
  id : String
  amount : ℤ
  status : String
  deriving DecidableEq

/-- The mutable kiosk/session state that the claims talk about: the cart,
the derived total, the payment lifecycle flags, the webview visibility,
the Checkout button enabled flag, and the global `ORDER_CACHE`. -/
structure KioskState where
  cart : List CartItem
  total : ℚ
  paymentStatus : PaymentStatus
  scanningActive : Bool
  paymentInProgress : Bool
  webviewVisible : Bool
  payBtnEnabled : Bool
  orderCache : List (String × ℤ)
  deriving DecidableEq

/-- `update_payment_ui` (fullcode.py lines 500-523), the slot of the
`payment_status_changed` signal: records the status and sets the Checkout
button enabled flag per branch. -/
def update_payment_ui (status : PaymentStatus) (s : KioskState) : KioskState :=
  let s1 := { s with paymentStatus := status }
  match status with
  | PaymentStatus.IDLE => { s1 with payBtnEnabled := !s1.cart.isEmpty }
  | PaymentStatus.PROCESSING => { s1 with payBtnEnabled := false }
  | PaymentStatus.SUCCESS => { s1 with payBtnEnabled := false }
  | PaymentStatus.FAILED => { s1 with payBtnEnabled := true }

/-- `refresh_cart_display` (fullcode.py lines 585-611): recomputes
`self.total = total * 1.05` (5% GST, no rounding applied to the stored
value) and re-enables the Checkout button exactly when the cart is
non-empty. -/
def refresh_cart_display (s : KioskState) : KioskState :=
  { s with total := cartSubtotal s.cart * (105 / 100),
           payBtnEnabled := !s.cart.isEmpty }

/-- `clear_cart`: empties the cart list and refreshes the display. -/
def clear_cart (s : KioskState) : KioskState :=
  refresh_cart_display { s with cart := [] }

/-- `add_barcode_to_cart` at the kiosk level: on a catalog miss it shows
a warning dialog and returns with the state untouched; otherwise it
installs the updated cart and refreshes the display. -/
def kiosk_add_barcode (catalog : String → Option Product) (barcode : String)
    (s : KioskState) : KioskState :=
  match scanBarcode catalog s.cart barcode with
  | (ScanResult.notFound, _) => s
  | (ScanResult.merged, cart') => refresh_cart_display { s with cart := cart' }
  | (ScanResult.added, cart') => refresh_cart_display { s with cart := cart' }

/-- `on_barcode_scanned` (fullcode.py lines 556-561): drains the hidden
input, strips it, and scans only a non-empty code. -/
def on_barcode_scanned (catalog : String → Option Product) (fieldText : String)
    (s : KioskState) : KioskState :=
  if pyStrip fieldText = "" then s
  else kiosk_add_barcode catalog (pyStrip fieldText) s

/-- `manual_barcode_add` (fullcode.py lines 563-568): same strip-then-scan
handling for the manual entry field. -/
def manual_barcode_add (catalog : String → Option Product) (fieldText : String)
    (s : KioskState) : KioskState :=
  if pyStrip fieldText = "" then s
  else kiosk_add_barcode catalog (pyStrip fieldText) s

/-- One completed serial line in `serial_scanner_thread` (fullcode.py
lines 927-931): the buffer is stripped at the terminator and a
`BarcodeEvent` is posted only for a non-empty barcode; `event()` then
runs `add_barcode_to_cart` on the control thread. -/
def serial_handle_line (catalog : String → Option Product) (line : String)
    (s : KioskState) : KioskState :=
  if pyStrip line = "" then s
  else kiosk_add_barcode catalog (pyStrip line) s

/-- `reset_payment_state` (fullcode.py lines 700-704): re-enables
scanning, clears the in-progress flag and emits the final status (the
5-second display-delay timer it starts is modelled as a separate event). -/
def reset_payment_state (finalStatus : PaymentStatus) (s : KioskState) : KioskState :=
  update_payment_ui finalStatus { s with scanningActive := true, paymentInProgress := false }

/-- `start_payment_flow` (fullcode.py lines 649-672): rejects an empty
cart with a warning; otherwise suppresses scanning, enters PROCESSING,
and asks the gateway to create an order.  On success the order is cached
and the webview is made visible at the checkout URL; on an order-creation
exception the state is reset to FAILED. -/
def start_payment_flow (orderResult : Except String RzpOrder) (s : KioskState) : KioskState :=
  if s.cart.isEmpty then s
  else
    let s1 := update_payment_ui PaymentStatus.PROCESSING
      { s with scanningActive := false, paymentInProgress := true }
    match orderResult with
    | Except.ok o =>
        { s1 with orderCache := s1.orderCache ++ [(o.id, o.amount)],
                  webviewVisible := true }
    | Except.error _ => reset_payment_state PaymentStatus.FAILED s1

/-- The payment status that the kiosk's own gateway query yields in
`finish_payment_handling`: `none` unless the navigation-extracted payment
id is truthy (non-`None`, non-empty) and `client.payment.fetch` succeeds
(`fetch` returns `none` when the fetch raises). -/
def fetchedStatus (fetch : String → Option RzpPayment)
    (payment_id : Option String) : Option String :=
  match payment_id with
  | none => none
  | some pid => if pid = "" then none else (fetch pid).map (fun p => p.status)

/-- `finish_payment_handling` (fullcode.py lines 680-698): hides the
webview, fetches the authoritative payment status, and on "captured"
records SUCCESS, shows the receipt and clears the cart, while any other
outcome records FAILED and leaves the cart alone; both branches end in
`reset_payment_state`. -/
def finish_payment_handling (fetch : String → Option RzpPayment)
    (payment_id : Option String) (s : KioskState) : KioskState :=
  let s1 := { s with webviewVisible := false }
  if fetchedStatus fetch payment_id = some "captured" then
    reset_payment_state PaymentStatus.SUCCESS
      (clear_cart { s1 with paymentStatus := PaymentStatus.SUCCESS })
  else
    reset_payment_state PaymentStatus.FAILED
      { s1 with paymentStatus := PaymentStatus.FAILED }

/-- `reset_payment_status_to_idle` (fullcode.py lines 706-708), the
display-delay timer callback: emits IDLE only when the status at firing
time is not PROCESSING. -/
def reset_payment_status_to_idle (s : KioskState) : KioskState :=
  if s.paymentStatus ≠ PaymentStatus.PROCESSING then
    update_payment_ui PaymentStatus.IDLE s
  else s

/-- The state built by `SmartKiosk.__init__` and `setup_ui`: empty cart,
total 0.0, IDLE, scanning active, webview hidden, `ORDER_CACHE` empty;
the Checkout button is created enabled (no initial refresh disables it). -/
def initialState : KioskState :=
  { cart := [], total := 0, paymentStatus := PaymentStatus.IDLE,
    scanningActive := true, paymentInProgress := false,
    webviewVisible := false, payBtnEnabled := true, orderCache := [] }

/-- The GUI and thread events that drive the session between quiescent
points.  A scan event is deliverable even while a payment is processing,
because neither `event()` (serial `BarcodeEvent` delivery) nor
`manual_barcode_add` consults `scanning_active`; the Checkout click is
available exactly when the button is enabled; the webview navigation to
a `/status/` URL triggers `finish_payment_handling`; the display-delay
timer fires `reset_payment_status_to_idle`. -/
inductive KioskEvent
  | scanEvent (b : String)
  | clearCartBtn
  | checkoutBtn (orderResult : Except String RzpOrder)
  | statusNavigation (payment_id : Option String) (fetch : String → Option RzpPayment)
  | displayDelayTimer

/-- One event handled at a quiescent point of the control thread. -/
def stepEvent (catalog : String → Option Product) (s : KioskState) :
    KioskEvent → KioskState
  | KioskEvent.scanEvent b => kiosk_add_barcode catalog b s
  | KioskEvent.clearCartBtn => clear_cart s
  | KioskEvent.checkoutBtn r => if s.payBtnEnabled then start_payment_flow r s else s
  | KioskEvent.statusNavigation pid fetch => finish_payment_handling fetch pid s
  | KioskEvent.displayDelayTimer => reset_payment_status_to_idle s

/-- Running an event trace from the freshly initialised kiosk. -/
def run (catalog : String → Option Product) (events : List KioskEvent) : KioskState :=
  events.foldl (stepEvent catalog) initialState

/-- The §3 PaymentSession invariant: PROCESSING means scanning suppressed
and checkout surface visible; every other status means scanning active
and surface hidden. -/
def statusInvariant (s : KioskState) : Prop :=
  (s.paymentStatus = PaymentStatus.PROCESSING →
     s.scanningActive = false ∧ s.webviewVisible = true) ∧
  (s.paymentStatus ≠ PaymentStatus.PROCESSING →
     s.scanningActive = true ∧ s.webviewVisible = false)

/-- States reachable from the initial kiosk state by event traces in
which the Checkout click is never delivered while a payment is already
PROCESSING. -/
inductive ReachableNoReentry (catalog : String → Option Product) : KioskState → Prop
  | init : ReachableNoReentry catalog initialState
  | step (s : KioskState) (e : KioskEvent) :
      ReachableNoReentry catalog s →
      (∀ r, e = KioskEvent.checkoutBtn r → s.paymentStatus ≠ PaymentStatus.PROCESSING) →
      ReachableNoReentry catalog (stepEvent catalog s e)

/-- A row of the `transactions` table created by `init_db` (fullcode.py
lines 262-266): columns id INTEGER PRIMARY KEY AUTOINCREMENT, date TEXT,
amount INTEGER, status TEXT, razorpay_id TEXT, raw_json TEXT. -/
structure TransactionRow where
  id : ℕ
  date : String
  amount : ℤ
  status : String
  razorpay_id : String
  raw_json : String
  deriving DecidableEq

/-- The `transactions` ledger store with SQLite's next AUTOINCREMENT
rowid. -/
structure TransactionsTable where
  rows : List TransactionRow
  nextId : ℕ
  deriving DecidableEq

/-- Whether inserting row `r` would collide with a uniqueness constraint
of the `transactions` schema.  `init_db` declares exactly one such
constraint: the INTEGER PRIMARY KEY on `id`; `razorpay_id` carries no
UNIQUE constraint. -/
def transactionsConflicts (t : TransactionsTable) (r : TransactionRow) : Bool :=
  t.rows.any (fun r0 => r0.id == r.id)

/-- `INSERT OR IGNORE INTO transactions ...` as executed by
`verify_payment`: the insert is skipped exactly when the new row would
violate a uniqueness constraint of the schema; the id comes from the
AUTOINCREMENT counter. -/
def insertOrIgnoreTransaction (t : TransactionsTable) (date : String)
    (amount : ℤ) (status : String) (rid : String) (raw : String) : TransactionsTable :=
  let r : TransactionRow :=
    { id := t.nextId, date := date, amount := amount, status := status,
      razorpay_id := rid, raw_json := raw }
  if transactionsConflicts t r then t
  else { rows := t.rows ++ [r], nextId := t.nextId + 1 }

/-- The empty `transactions` table right after `init_db` (SQLite
AUTOINCREMENT starts at 1). -/
def emptyTable : TransactionsTable := { rows := [], nextId := 1 }

/-- All stored rowids are below the AUTOINCREMENT counter; SQLite
maintains this for every AUTOINCREMENT table. -/
def wellFormedTable (t : TransactionsTable) : Prop :=
  ∀ r ∈ t.rows, r.id < t.nextId

/-- `json.dumps(payment)` restricted to the modelled payment fields. -/
def rzpJson (p : RzpPayment) : String :=
  p.id ++ "|" ++ toString p.amount ++ "|" ++ p.status

/-- `request.form.to_dict()` for the `/verify` route: each of the three
gateway callback fields may be absent. -/
structure VerifyForm where
  razorpay_payment_id : Option String
  razorpay_order_id : Option String
  razorpay_signature : Option String
  deriving DecidableEq

/-- The JSON/HTTP response of the `/verify` route: the 400 missing-params
error, the 400 verification-or-DB error, or the 200 ok payload carrying
the fetched payment. -/
inductive VerifyResponse
  | missingParams
  | verifyFailed
  | ok (payment : RzpPayment)
  deriving DecidableEq

/-- Whether the response is one of the error (HTTP 400) responses. -/
def VerifyResponse.isError : VerifyResponse → Bool
  | VerifyResponse.ok _ => false
  | _ => true

/-- The `/verify` route `verify_payment` (fullcode.py lines 215-239).
`sigValid` is the outcome of `client.utility.verify_payment_signature`
(which raises on failure), `fetch` is `client.payment.fetch` (`none`
when it raises); any exception is answered with the 400 error response
and skips the ledger write, otherwise the fetched payment is written
with `INSERT OR IGNORE` and echoed in the ok response. -/
def verify_payment (sigValid : Bool) (fetch : String → Option RzpPayment)
    (now : String) (form : VerifyForm) (t : TransactionsTable) :
    VerifyResponse × TransactionsTable :=
  match form.razorpay_payment_id, form.razorpay_order_id, form.razorpay_signature with
  | some pid, some _, some _ =>
      if sigValid then
        match fetch pid with
        | some p =>
            (VerifyResponse.ok p,
             insertOrIgnoreTransaction t now p.amount p.status p.id (rzpJson p))
        | none => (VerifyResponse.verifyFailed, t)
      else (VerifyResponse.verifyFailed, t)
  | _, _, _ => (VerifyResponse.missingParams, t)

/-- Spec-side definition, following the spec's words: `round(x, 2)`,
rounding to two decimal places (agrees with Python's `round` at every
non-tie point; the counterexample below is tie-free). -/
def round2 (x : ℚ) : ℚ := ((round (x * 100) : ℤ) : ℚ) / 100

/-- A one-line cart at unit price 10.01, quantity 1 (any price whose
taxed total has more than two decimals works). -/
def cartC3 : List CartItem := [⟨"990000000000", "Sticker", 1001 / 100, 1⟩]

/-- The spec's §8 scenario as an event trace: two scans of the Milk
barcode. -/
def c3events : List KioskEvent :=
  [KioskEvent.scanEvent "123456789012", KioskEvent.scanEvent "123456789012"]

/-- A gateway in which payment pay_1 exists and is captured. -/
def fetchPay1 : String → Option RzpPayment :=
  fun i => if i = "pay_1" then some { id := "pay_1", amount := 8400, status := "captured" }
           else none

/-- A complete `/verify` callback form for payment pay_1. -/
def verifyFormPay1 : VerifyForm :=
  { razorpay_payment_id := some "pay_1", razorpay_order_id := some "order_1",
    razorpay_signature := some "sig_1" }

/-- A gateway in which payment pay_f exists with authoritative status
"failed". -/
def fetchFailedPay : String → Option RzpPayment :=
  fun i => if i = "pay_f" then some { id := "pay_f", amount := 8400, status := "failed" }
           else none

/-- A complete `/verify` callback form for payment pay_f. -/
def verifyFormFailed : VerifyForm :=
  { razorpay_payment_id := some "pay_f", razorpay_order_id := some "order_f",
    razorpay_signature := some "sig_f" }

/-- A gateway for the navigation-completion scenario: pay_ok exists and
is captured, everything else is unknown. -/
def fetchC2 : String → Option RzpPayment :=
  fun i => if i = "pay_ok" then some { id := "pay_ok", amount := 8400, status := "captured" }
           else none

/-- A kiosk mid-payment with two units of Milk in the cart. -/
def stateC2 : KioskState :=
  { initialState with cart := [⟨"123456789012", "Milk", 40, 2⟩], total := 84 }

/-- A kiosk whose session is PROCESSING (fields as established by a
successful `start_payment_flow`). -/
def stateProcessing : KioskState :=
  { initialState with
    paymentStatus := PaymentStatus.PROCESSING,
    scanningActive := false, webviewVisible := true, payBtnEnabled := false,
    paymentInProgress := true }

/-- A kiosk displaying a FAILED outcome, waiting for the display-delay
timer. -/
def stateFailedC8 : KioskState :=
  { initialState with paymentStatus := PaymentStatus.FAILED }

/-- Event trace violating the §3 status invariant: checkout, then a scan
delivered while PROCESSING (which re-enables the Checkout button), then
a second checkout whose order creation fails — the webview stays visible
in the FAILED state. -/
def c7trace : List KioskEvent :=
  [KioskEvent.scanEvent "123456789012",
   KioskEvent.checkoutBtn (Except.ok ⟨"order_1", 8400⟩),
   KioskEvent.scanEvent "123456789012",
   KioskEvent.checkoutBtn (Except.error "order creation failed")]

theorem qtyOf_addLoop (row : Product) (b' b : String) (cart : List CartItem) :
    qtyOf (addLoop row b' cart).2 b = qtyOf cart b + (if b' = b then 1 else 0) := by
  induction cart with
  | nil => simp [addLoop, qtyOf]
  | cons it rest ih =>
    by_cases hit : it.barcode = b'
    · by_cases hb : b' = b
      · simp [addLoop, hit, qtyOf, hit.trans hb, hb]
        omega
      · have hbb : ¬ it.barcode = b := fun h => hb (hit.symm.trans h)
        simp [addLoop, hit, qtyOf, hbb, hb]
    · simp only [addLoop, hit, if_neg, ite_false, qtyOf, ih]
      omega

theorem addLoop_fst_ne_notFound (row : Product) (b : String) (cart : List CartItem) :
    (addLoop row b cart).1 ≠ ScanResult.notFound := by
  induction cart with
  | nil => simp [addLoop]
  | cons it rest ih =>
    by_cases hit : it.barcode = b
    · simp [addLoop, hit]
    · simp only [addLoop, hit, ite_false]
      exact ih

theorem mem_addLoop_barcodes (row : Product) (b' : String) (cart : List CartItem)
    (x : String) :
    x ∈ ((addLoop row b' cart).2.map (fun it => it.barcode)) →
      x ∈ cart.map (fun it => it.barcode) ∨ x = b' := by
  induction cart with
  | nil =>
    intro hx
    right
    simpa [addLoop] using hx
  | cons it rest ih =>
    by_cases hit : it.barcode = b'
    · intro hx
      left
      simpa [addLoop, hit] using hx
    · intro hx
      simp only [addLoop, hit, ite_false, List.map_cons, List.mem_cons] at hx
      rcases hx with hx | hx
      · exact Or.inl (by simp [hx])
      · rcases ih hx with h1 | h1
        · exact Or.inl (by simp [h1])
        · exact Or.inr h1

theorem nodup_addLoop (row : Product) (b' : String) (cart : List CartItem)
    (h : (cart.map (fun it => it.barcode)).Nodup) :
    ((addLoop row b' cart).2.map (fun it => it.barcode)).Nodup := by
  induction cart with
  | nil => simp [addLoop]
  | cons it rest ih =>
    simp only [List.map_cons, List.nodup_cons] at h
    by_cases hit : it.barcode = b'
    · simp only [addLoop, hit, ite_true, List.map_cons, List.nodup_cons]
      exact ⟨by simpa [hit] using h.1, h.2⟩
    · simp only [addLoop, hit, ite_false, List.map_cons, List.nodup_cons]
      refine ⟨fun hmem => ?_, ih h.2⟩
      rcases mem_addLoop_barcodes row b' rest it.barcode hmem with hin | heq
      · exact h.1 hin
      · exact hit heq

theorem qtyOf_add_barcode (catalog : String → Option Product) (cart : List CartItem)
    (b' b : String) :
    qtyOf (add_barcode_to_cart catalog cart b') b =
      qtyOf cart b + (if b' = b ∧ (catalog b').isSome then 1 else 0) := by
  cases hcat : catalog b' with
  | none => simp [add_barcode_to_cart, scanBarcode, hcat]
  | some row =>
    simp only [add_barcode_to_cart, scanBarcode, hcat]
    rw [qtyOf_addLoop]
    congr 1
    by_cases hb : b' = b <;> simp [hb, hcat]

theorem nodup_add_barcode (catalog : String → Option Product) (cart : List CartItem)
    (b' : String) (h : (cart.map (fun it => it.barcode)).Nodup) :
    ((add_barcode_to_cart catalog cart b').map (fun it => it.barcode)).Nodup := by
  cases hcat : catalog b' with
  | none => simpa [add_barcode_to_cart, scanBarcode, hcat] using h
  | some row =>
    simp only [add_barcode_to_cart, scanBarcode, hcat]
    exact nodup_addLoop row b' cart h

theorem qtyOf_foldl_scans (catalog : String → Option Product) (bs : List String) :
    ∀ (cart : List CartItem) (b : String),
      qtyOf (bs.foldl (add_barcode_to_cart catalog) cart) b =
        qtyOf cart b + successfulScans catalog bs b := by
  induction bs with
  | nil => intro cart b; simp [successfulScans]
  | cons b0 rest ih =>
    intro cart b
    simp only [List.foldl_cons, successfulScans]
    rw [ih, qtyOf_add_barcode]
    omega

theorem nodup_foldl_scans (catalog : String → Option Product) (bs : List String) :
    ∀ cart : List CartItem, (cart.map (fun it => it.barcode)).Nodup →
      ((bs.foldl (add_barcode_to_cart catalog) cart).map (fun it => it.barcode)).Nodup := by
  induction bs with
  | nil => intro cart h; simpa using h
  | cons b0 rest ih =>
    intro cart h
    simp only [List.foldl_cons]
    exact ih _ (nodup_add_barcode catalog cart b0 h)

/-- C5: for every sequence of scans starting from an empty cart, no two
line items share a barcode, and the quantity for barcode `b` equals the
number of successful scans of `b` since the last clear. -/
theorem c5_scan_invariant (catalog : String → Option Product) (bs : List String)
    (b : String) :
    ((runScans catalog bs).map (fun it => it.barcode)).Nodup ∧
      qtyOf (runScans catalog bs) b = successfulScans catalog bs b := by
  constructor
  · exact nodup_foldl_scans catalog bs [] (by simp)
  · have h := qtyOf_foldl_scans catalog bs [] b
    simpa [runScans, qtyOf] using h

/-- C9: a barcode missing from the catalog is reported as a recoverable
not-found signal (a warning dialog, no exception) and the cart — indeed
the whole kiosk state and hence the total — is left unchanged. -/
theorem c9_unknown_barcode (catalog : String → Option Product) (s : KioskState)
    (barcode : String) (h : catalog barcode = none) :
    scanBarcode catalog s.cart barcode = (ScanResult.notFound, s.cart) ∧
      kiosk_add_barcode catalog barcode s = s := by
  constructor
  · simp [scanBarcode, h]
  · simp [kiosk_add_barcode, scanBarcode, h]

/-- C9 witness: the not-found branch at a concrete unknown barcode. -/
theorem c9_unknown_barcode_witness :
    scanBarcode sampleCatalog initialState.cart "000000000000" =
        (ScanResult.notFound, initialState.cart) ∧
      kiosk_add_barcode sampleCatalog "000000000000" initialState = initialState :=
  c9_unknown_barcode sampleCatalog initialState "000000000000" (by decide)

/-- C10: an input whose whitespace-stripped content is empty performs no
scan through any of the three entry paths — hidden scan field, manual
entry field, serial line — leaving the kiosk state (cart and total)
unchanged. -/
theorem c10_blank_input (catalog : String → Option Product) (s : KioskState)
    (input : String) (h : pyStrip input = "") :
    on_barcode_scanned catalog input s = s ∧
      manual_barcode_add catalog input s = s ∧
      serial_handle_line catalog input s = s := by
  refine ⟨?_, ?_, ?_⟩ <;>
    simp [on_barcode_scanned, manual_barcode_add, serial_handle_line, h]

/-- C10 witness: a whitespace-only input at a concrete state. -/
theorem c10_blank_input_witness :
    on_barcode_scanned sampleCatalog " \t " stateC2 = stateC2 ∧
      manual_barcode_add sampleCatalog " \t " stateC2 = stateC2 ∧
      serial_handle_line sampleCatalog " \t " stateC2 = stateC2 :=
  c10_blank_input sampleCatalog stateC2 " \t " (by decide)

/-- C6: with an empty cart, `start_payment_flow` rejects the checkout
with a warning: the state is returned untouched, so no order is created
or cached, the status stays IDLE and the cart stays empty. -/
theorem c6_empty_cart_rejected (r : Except String RzpOrder) (s : KioskState)
    (hcart : s.cart = []) (hidle : s.paymentStatus = PaymentStatus.IDLE) :
    start_payment_flow r s = s ∧
      (start_payment_flow r s).paymentStatus = PaymentStatus.IDLE ∧
      (start_payment_flow r s).cart = [] ∧
      (start_payment_flow r s).orderCache = s.orderCache := by
  have h1 : start_payment_flow r s = s := by simp [start_payment_flow, hcart]
  exact ⟨h1, by rw [h1, hidle], by rw [h1, hcart], by rw [h1]⟩

/-- C6 witness: an empty-cart checkout attempt on the freshly initialised
kiosk, with the gateway ready to hand out an order. -/
theorem c6_empty_cart_rejected_witness :
    start_payment_flow (Except.ok ⟨"order_1", 8400⟩) initialState = initialState :=
  (c6_empty_cart_rejected (Except.ok ⟨"order_1", 8400⟩) initialState rfl rfl).1

/-- C8: the display-delay timer callback moves the session to IDLE
exactly when the status at firing time is not PROCESSING; a checkout
that entered PROCESSING before the timer fires is left untouched by the
stale callback. -/
theorem c8_stale_timer (s : KioskState) :
    (s.paymentStatus = PaymentStatus.PROCESSING →
       reset_payment_status_to_idle s = s) ∧
    (s.paymentStatus ≠ PaymentStatus.PROCESSING →
       (reset_payment_status_to_idle s).paymentStatus = PaymentStatus.IDLE) := by
  constructor
  · intro h; simp [reset_payment_status_to_idle, h]
  · intro h; simp [reset_payment_status_to_idle, h, update_payment_ui]

/-- C8 witness: the timer is a no-op on a PROCESSING session and resets
a FAILED display to IDLE. -/
theorem c8_stale_timer_witness :
    reset_payment_status_to_idle stateProcessing = stateProcessing ∧
      (reset_payment_status_to_idle stateFailedC8).paymentStatus = PaymentStatus.IDLE :=
  ⟨(c8_stale_timer stateProcessing).1 rfl, (c8_stale_timer stateFailedC8).2 (by decide)⟩

/-- C1 (code bug): two `/verify` callbacks for the same payment id, both
with verifying signatures, leave two rows for that id in the ledger: the
`transactions` schema of `init_db` has no UNIQUE constraint on
`razorpay_id` (only the autoincrement primary key), so the
`INSERT OR IGNORE` in `verify_payment` never ignores a repeat. -/
theorem c1_duplicate_ledger_rows :
    ((verify_payment true fetchPay1 "2026-10-12T10:01:00" verifyFormPay1
        (verify_payment true fetchPay1 "2026-10-12T10:00:00" verifyFormPay1
          emptyTable).2).2.rows.countP
      (fun r => r.razorpay_id == "pay_1")) = 2 := by decide

theorem kiosk_add_barcode_found (catalog : String → Option Product) (b : String)
    (s : KioskState) (row : Product) (h : catalog b = some row) :
    kiosk_add_barcode catalog b s =
      refresh_cart_display { s with cart := (addLoop row b s.cart).2 } := by
  have hne := addLoop_fst_ne_notFound row b s.cart
  rcases he : addLoop row b s.cart with ⟨res, cart'⟩
  cases res with
  | notFound => rw [he] at hne; simp at hne
  | merged => simp [kiosk_add_barcode, scanBarcode, h, he]
  | added => simp [kiosk_add_barcode, scanBarcode, h, he]

/-- C3 counterexample: the stored total is not rounded to two decimal
places — a cart holding one item at unit price 10.01 yields the stored
total 10.5105 after `refresh_cart_display`, while the spec's
`round(subtotal × 1.05, 2)` is 10.51. -/
theorem c3_counterexample :
    (refresh_cart_display { initialState with cart := cartC3 }).total ≠
      round2 (cartSubtotal cartC3 * (105 / 100)) := by
  norm_num [refresh_cart_display, cartC3, cartSubtotal, round2, round_eq, initialState]

/-- C3 corrected: after a successful scan the stored total is exactly
subtotal × 1.05 with tax rate 0.05 and no rounding applied (rounding to
two decimals happens only in display formatting), and the spec's
concrete scenario holds: two scans of barcode 123456789012 at unit price
40.00 with 5% tax give total exactly 84.00. -/
theorem c3_total_unrounded (catalog : String → Option Product) (b : String)
    (s : KioskState) (row : Product) (h : catalog b = some row) :
    (kiosk_add_barcode catalog b s).total =
        cartSubtotal (kiosk_add_barcode catalog b s).cart * (105 / 100) ∧
      (run sampleCatalog c3events).total = 84 := by
  constructor
  · rw [kiosk_add_barcode_found catalog b s row h]
    simp [refresh_cart_display]
  · have he : (run sampleCatalog c3events).total =
        cartSubtotal [⟨"123456789012", "Milk", 40, 2⟩] * (105 / 100) := rfl
    rw [he]
    norm_num [cartSubtotal]

/-- C3 witness: the scan of Milk on the fresh kiosk instantiates the
catalog-hit hypothesis. -/
theorem c3_total_unrounded_witness :
    (kiosk_add_barcode sampleCatalog "123456789012" initialState).total =
      cartSubtotal (kiosk_add_barcode sampleCatalog "123456789012" initialState).cart *
        (105 / 100) :=
  (c3_total_unrounded sampleCatalog "123456789012" initialState
    ⟨"123456789012", "Milk", 40⟩ (by decide)).1

theorem fetchedStatus_eq_captured (fetch : String → Option RzpPayment)
    (payment_id : Option String) :
    fetchedStatus fetch payment_id = some "captured" ↔
      ∃ pid p, payment_id = some pid ∧ pid ≠ "" ∧ fetch pid = some p ∧
        p.status = "captured" := by
  cases payment_id with
  | none => simp [fetchedStatus]
  | some pid =>
    by_cases hpid : pid = ""
    · simp [fetchedStatus, hpid]
    · simp only [fetchedStatus, hpid, if_neg, ite_false, Option.map_eq_some']
      constructor
      · rintro ⟨p, hp, hs⟩
        exact ⟨pid, p, rfl, hpid, hp, hs⟩
      · rintro ⟨pid', p, heq, _, hp, hs⟩
        injection heq with heq'
        subst heq'
        exact ⟨p, hp, hs⟩

/-- C2: navigation-triggered completion reaches SUCCESS exactly when the
kiosk's own direct gateway fetch for the extracted payment id succeeds
and reports status "captured", in which case the cart is cleared; in
every other case (missing or empty id, failed fetch, any other status)
the session reaches FAILED and the cart is preserved unchanged. -/
theorem c2_finish_payment (fetch : String → Option RzpPayment)
    (payment_id : Option String) (s : KioskState) :
    ((finish_payment_handling fetch payment_id s).paymentStatus = PaymentStatus.SUCCESS ↔
       ∃ pid p, payment_id = some pid ∧ pid ≠ "" ∧ fetch pid = some p ∧
         p.status = "captured") ∧
    ((finish_payment_handling fetch payment_id s).paymentStatus = PaymentStatus.SUCCESS →
       (finish_payment_handling fetch payment_id s).cart = []) ∧
    ((finish_payment_handling fetch payment_id s).paymentStatus ≠ PaymentStatus.SUCCESS →
       (finish_payment_handling fetch payment_id s).paymentStatus = PaymentStatus.FAILED ∧
       (finish_payment_handling fetch payment_id s).cart = s.cart) := by
  by_cases hcap : fetchedStatus fetch payment_id = some "captured"
  · have hst : (finish_payment_handling fetch payment_id s).paymentStatus =
        PaymentStatus.SUCCESS := by
      simp [finish_payment_handling, hcap, reset_payment_state, update_payment_ui]
    have hct : (finish_payment_handling fetch payment_id s).cart = [] := by
      simp [finish_payment_handling, hcap, reset_payment_state, update_payment_ui,
        clear_cart, refresh_cart_display]
    refine ⟨?_, fun _ => hct, fun hc => absurd hst hc⟩
    rw [hst]
    simp only [true_iff]
    exact (fetchedStatus_eq_captured fetch payment_id).mp hcap
  · have hst : (finish_payment_handling fetch payment_id s).paymentStatus =
        PaymentStatus.FAILED := by
      simp [finish_payment_handling, hcap, reset_payment_state, update_payment_ui]
    have hct : (finish_payment_handling fetch payment_id s).cart = s.cart := by
      simp [finish_payment_handling, hcap, reset_payment_state, update_payment_ui]
    refine ⟨?_, ?_, fun _ => ⟨hst, hct⟩⟩
    · rw [hst]
      constructor
      · intro h
        exact absurd h (by decide)
      · intro hex
        exact absurd ((fetchedStatus_eq_captured fetch payment_id).mpr hex) hcap
    · intro h
      exact absurd (hst.symm.trans h) (by decide)

/-- C2 witness: a captured fetch clears the cart; an unknown payment id
preserves it. -/
theorem c2_finish_payment_witness :
    (finish_payment_handling fetchC2 (some "pay_ok") stateC2).cart = [] ∧
      (finish_payment_handling fetchC2 (some "pay_nope") stateC2).cart = stateC2.cart :=
  ⟨(c2_finish_payment fetchC2 (some "pay_ok") stateC2).2.1 (by decide),
   ((c2_finish_payment fetchC2 (some "pay_nope") stateC2).2.2 (by decide)).2⟩

/-- C4 counterexample: a `/verify` callback whose signature verifies but
whose authoritative fetched status is "failed" does produce a ledger
row — `verify_payment` inserts the fetched payment whatever its status
says. -/
theorem c4_counterexample :
    ((verify_payment true fetchFailedPay "2026-10-12T10:00:00" verifyFormFailed
        emptyTable).2.rows.countP
      (fun r => r.razorpay_id == "pay_f" && r.status == "failed")) = 1 := by decide

/-- C4 corrected: on signature-verification failure (and likewise on a
failed gateway fetch or missing parameters) the `/verify` route answers
with an error response and writes nothing to the ledger; but a callback
that verifies and fetches successfully is recorded with whatever status
the gateway reports — including "failed". -/
theorem c4_verify_endpoint (fetch : String → Option RzpPayment) (now : String)
    (form : VerifyForm) (t : TransactionsTable) :
    ((verify_payment false fetch now form t).2 = t ∧
       ((verify_payment false fetch now form t).1).isError = true) ∧
    (∀ pid p, form.razorpay_payment_id = some pid →
       form.razorpay_order_id ≠ none → form.razorpay_signature ≠ none →
       fetch pid = some p → wellFormedTable t →
       (verify_payment true fetch now form t).2.rows =
         t.rows ++ [⟨t.nextId, now, p.amount, p.status, p.id, rzpJson p⟩]) := by
  constructor
  · rcases form with ⟨fp, fo, fs⟩
    cases fp <;> cases fo <;> cases fs <;>
      simp [verify_payment, VerifyResponse.isError]
  · intro pid p hp ho hs hf hwf
    rcases form with ⟨fp, fo, fs⟩
    simp only at hp ho hs
    subst hp
    cases fo with
    | none => exact absurd rfl ho
    | some o =>
      cases fs with
      | none => exact absurd rfl hs
      | some sg =>
        have hc : transactionsConflicts t
            ⟨t.nextId, now, p.amount, p.status, p.id, rzpJson p⟩ = false := by
          simp only [transactionsConflicts, List.any_eq_false, beq_iff_eq]
          intro r0 hr0
          exact Nat.ne_of_lt (hwf r0 hr0)
        simp [verify_payment, hf, insertOrIgnoreTransaction, hc]

/-- C4 witness: the error path leaves the empty ledger empty and the
failed-status payment is appended verbatim. -/
theorem c4_verify_endpoint_witness :
    (verify_payment false fetchFailedPay "2026-10-12T10:00:00" verifyFormFailed
        emptyTable).2 = emptyTable ∧
      (verify_payment true fetchFailedPay "2026-10-12T10:00:00" verifyFormFailed
          emptyTable).2.rows =
        emptyTable.rows ++
          [⟨emptyTable.nextId, "2026-10-12T10:00:00", 8400, "failed", "pay_f",
            rzpJson ⟨"pay_f", 8400, "failed"⟩⟩] :=
  ⟨(c4_verify_endpoint fetchFailedPay "2026-10-12T10:00:00" verifyFormFailed
      emptyTable).1.1,
   (c4_verify_endpoint fetchFailedPay "2026-10-12T10:00:00" verifyFormFailed
      emptyTable).2 "pay_f" ⟨"pay_f", 8400, "failed"⟩ rfl (by decide) (by decide)
      (by decide) (by intro r hr; exact absurd hr (List.not_mem_nil r))⟩

theorem kiosk_add_preserves (catalog : String → Option Product) (b : String)
    (s : KioskState) :
    (kiosk_add_barcode catalog b s).paymentStatus = s.paymentStatus ∧
      (kiosk_add_barcode catalog b s).scanningActive = s.scanningActive ∧
      (kiosk_add_barcode catalog b s).webviewVisible = s.webviewVisible := by
  rcases h : scanBarcode catalog s.cart b with ⟨res, cart'⟩
  cases res <;> simp [kiosk_add_barcode, h, refresh_cart_display]

theorem clear_cart_preserves (s : KioskState) :
    (clear_cart s).paymentStatus = s.paymentStatus ∧
      (clear_cart s).scanningActive = s.scanningActive ∧
      (clear_cart s).webviewVisible = s.webviewVisible := by
  simp [clear_cart, refresh_cart_display]

/-- C7 counterexample: the invariant is violated at an observable point
reachable in the GUI — checkout, a scan delivered during PROCESSING (it
re-enables the Checkout button via `refresh_cart_display`), and a second
checkout whose order creation fails leave the session FAILED while the
checkout surface is still visible. -/
theorem c7_counterexample :
    (run sampleCatalog c7trace).paymentStatus = PaymentStatus.FAILED ∧
      (run sampleCatalog c7trace).webviewVisible = true ∧
      ¬ statusInvariant (run sampleCatalog c7trace) := by
  refine ⟨rfl, rfl, fun h => absurd ((h.2 (by decide)).2) (by decide)⟩

/-- C7 corrected: the §3 status invariant — PROCESSING implies scanning
suppressed and surface visible, any other status implies scanning active
and surface hidden — holds at every observable point reachable from the
initial state, provided the Checkout click is never delivered while a
payment is already PROCESSING. -/
theorem c7_invariant_no_reentry (catalog : String → Option Product)
    (s : KioskState) (h : ReachableNoReentry catalog s) : statusInvariant s := by
  induction h with
  | init =>
    constructor
    · intro hp
      exact absurd hp (by decide)
    · intro _
      exact ⟨rfl, rfl⟩
  | step s e hs hguard ih =>
    cases e with
    | scanEvent b =>
      simp only [stepEvent]
      obtain ⟨h1, h2, h3⟩ := kiosk_add_preserves catalog b s
      constructor
      · intro hp
        rw [h1] at hp
        exact ⟨h2.trans (ih.1 hp).1, h3.trans (ih.1 hp).2⟩
      · intro hp
        rw [h1] at hp
        exact ⟨h2.trans (ih.2 hp).1, h3.trans (ih.2 hp).2⟩
    | clearCartBtn =>
      simp only [stepEvent]
      obtain ⟨h1, h2, h3⟩ := clear_cart_preserves s
      constructor
      · intro hp
        rw [h1] at hp
        exact ⟨h2.trans (ih.1 hp).1, h3.trans (ih.1 hp).2⟩
      · intro hp
        rw [h1] at hp
        exact ⟨h2.trans (ih.2 hp).1, h3.trans (ih.2 hp).2⟩
    | checkoutBtn r =>
      simp only [stepEvent]
      have hnp : s.paymentStatus ≠ PaymentStatus.PROCESSING := hguard r rfl
      by_cases hbtn : s.payBtnEnabled = true
      · simp only [hbtn, if_true]
        unfold start_payment_flow
        by_cases hempty : s.cart.isEmpty = true
        · simp only [hempty, if_true]
          exact ih
        · simp only [hempty, if_false, Bool.false_eq_true]
          cases r with
          | ok o =>
            constructor
            · intro _
              exact ⟨rfl, rfl⟩
            · intro hp
              exact absurd rfl hp
          | error msg =>
            constructor
            · intro hp
              have hx : PaymentStatus.FAILED = PaymentStatus.PROCESSING := hp
              exact PaymentStatus.noConfusion hx
            · intro _
              exact ⟨rfl, (ih.2 hnp).2⟩
      · simp only [hbtn, if_false, Bool.false_eq_true]
        exact ih
    | statusNavigation pid fetch =>
      simp only [stepEvent]
      by_cases hcap : fetchedStatus fetch pid = some "captured"
      · simp only [finish_payment_handling, hcap, if_true]
        constructor
        · intro hp
          have hx : PaymentStatus.SUCCESS = PaymentStatus.PROCESSING := hp
          exact PaymentStatus.noConfusion hx
        · intro _
          exact ⟨rfl, rfl⟩
      · simp only [finish_payment_handling, hcap, if_false]
        constructor
        · intro hp
          have hx : PaymentStatus.FAILED = PaymentStatus.PROCESSING := hp
          exact PaymentStatus.noConfusion hx
        · intro _
          exact ⟨rfl, rfl⟩
    | displayDelayTimer =>
      simp only [stepEvent]
      by_cases hp : s.paymentStatus = PaymentStatus.PROCESSING
      · simp only [reset_payment_status_to_idle, hp, ne_eq, not_true_eq_false,
          if_false]
        exact ih
      · simp only [reset_payment_status_to_idle, hp, ne_eq, not_false_eq_true,
          if_true]
        constructor
        · intro hq
          have hx : PaymentStatus.IDLE = PaymentStatus.PROCESSING := hq
          exact PaymentStatus.noConfusion hx
        · intro _
          exact ⟨(ih.2 hp).1, (ih.2 hp).2⟩

/-- C7 witness: the amended invariant instantiated at the reachable
initial state. -/
theorem c7_invariant_no_reentry_witness : statusInvariant initialState :=
  c7_invariant_no_reentry sampleCatalog initialState ReachableNoReentry.init
